import Mathlib

/-!
Verification of the esp_dmx driver sources against its natural-language
specification.  The C sources are shallowly embedded: pure control flow
becomes Lean functions, driver state becomes explicit records, machine
integers become `Nat`/`Int` with explicit wrapping where it matters, and
hardware or RTOS effects (FIFO contents, semaphore outcomes, allocation
results) become explicit inputs or output fields.
-/

set_option maxRecDepth 4096

namespace EspDmx

/-! ## RDM transaction counter (src/src/rdm/controller/utils.c)

`dmx_driver_t.rdm.tn` is a `uint8_t` (src/src/dmx/include/service.h:133,
documented there as "Is incremented with every RDM packet sent").
`rdm_get_transaction_num` (utils.c:181-191) only reads the counter, and
`rdm_send_request` (utils.c:44) stores that read value into the request
header's `tn` field before the packet is sent. -/

/-- State fragment of `dmx_driver_t` holding the RDM transaction counter
`rdm.tn` (a `uint8_t`, so the invariant `tn < 256` is maintained by every
operation). -/
structure RdmDriverTn where
  tn : Nat
  deriving DecidableEq, Repr

/-- Embedding of `rdm_get_transaction_num` (utils.c:181-191): reads the
driver's current transaction number under the spinlock and returns it
without modifying it. -/
def rdm_get_transaction_num (d : RdmDriverTn) : Nat :=
  d.tn

/-- Modelled from the spec: the body of `dmx_send` is not under src/ (only
its declaration in src/src/esp_dmx.h and its callers are).  Per the field
documentation in src/src/dmx/include/service.h:133 ("The current RDM
transaction number. Is incremented with every RDM packet sent") and the
spec ("`rdm.tn`: 8-bit transaction counter, incremented on every
controller-issued request (wraps)"), sending an RDM packet increments the
8-bit counter, wrapping modulo 256. -/
def dmx_send_tn (d : RdmDriverTn) : RdmDriverTn :=
  { tn := (d.tn + 1) % 256 }

/-- Effect of one (successful) `rdm_send_request` call on the transaction
counter, following utils.c: the header's `tn` field receives the value
read by `rdm_get_transaction_num` (utils.c:44), and the counter is then
incremented when the packet is sent by `dmx_send` (utils.c:62).  Returns
the header `tn` together with the post-call driver state. -/
def rdm_send_request_tn (d : RdmDriverTn) : Nat × RdmDriverTn :=
  let headerTn := rdm_get_transaction_num d
  (headerTn, dmx_send_tn d)

/-- The list of header `tn` values produced by `n` consecutive
(successful) `rdm_send_request` calls starting from driver state `d`. -/
def tnTrace (d : RdmDriverTn) : Nat → List Nat
  | 0 => []
  | n + 1 =>
    (rdm_send_request_tn d).1 :: tnTrace (rdm_send_request_tn d).2 n

/-! ## rdm_send_request (src/src/rdm/controller/utils.c:10-179)

The function is embedded as a pure function from an environment (the
outcomes of the RTOS/driver calls it makes: `dmx_wait_sent`, `dmx_send`,
`dmx_receive`, `rdm_read_header`) and the pre-call driver buffer to a
result record holding the return value, the post-call driver buffer, the
fields written into the caller's `rdm_ack_t`, and whether `rdm_read_pd`
was invoked to copy parameter data into the caller's `pd` output. -/

/-- Modelled from the spec: rdm/include/types.h is not under src/.  RDM
response-type codes from ANSI E1.20 (the wire values 0x00-0x03) plus the
library's two out-of-band markers, whose exact numeric values are
immaterial here (only their distinctness is used). -/
def RDM_RESPONSE_TYPE_ACK : Nat := 0x00

def RDM_RESPONSE_TYPE_ACK_TIMER : Nat := 0x01

def RDM_RESPONSE_TYPE_NACK_REASON : Nat := 0x02

def RDM_RESPONSE_TYPE_ACK_OVERFLOW : Nat := 0x03

def RDM_RESPONSE_TYPE_NONE : Nat := 0xFE

def RDM_RESPONSE_TYPE_INVALID : Nat := 0xFF

/-- Modelled from the spec: PID of DISC_UNIQUE_BRANCH (ANSI E1.20 value
0x0001); rdm/include/types.h is not under src/. -/
def RDM_PID_DISC_UNIQUE_BRANCH : Nat := 0x0001

/-- Modelled from the spec: `rdm_response_type_is_valid` is not under
src/; a response type read off the wire is valid when it is one of the
four E1.20 codes ACK, ACK_TIMER, NACK_REASON, ACK_OVERFLOW (0x00-0x03). -/
def rdm_response_type_is_valid (t : Nat) : Bool :=
  t ≤ RDM_RESPONSE_TYPE_ACK_OVERFLOW

/-- Modelled from the spec: millisecond-to-tick conversion for the RTOS;
the conversion factor is irrelevant to the claims, so ticks are
identified with milliseconds. -/
def dmx_ms_to_ticks (ms : Nat) : Nat := ms

/-- The `DMX_OK` error code carried in `dmx_packet_t.err`. -/
def DMX_OK : Nat := 0

/-- Environment of one `rdm_send_request` call: the caller-supplied
transaction fields it inspects and the outcomes of the external calls it
makes. -/
structure RdmEnv where
  /-- result of `dmx_wait_sent(dmx_num, 23ms)` at utils.c:36 -/
  wait_sent_ok : Bool
  /-- result of `dmx_send` at utils.c:62 -/
  send_ok : Bool
  /-- result of `rdm_uid_is_broadcast(transaction->dest_uid)` -/
  dest_is_broadcast : Bool
  /-- `transaction->pid` -/
  req_pid : Nat
  /-- `transaction->pdl` -/
  req_pdl : Nat
  /-- `packet.err` filled by `dmx_receive` at utils.c:97 -/
  rx_err : Nat
  /-- `packet.size` filled by `dmx_receive`; 0 means no packet arrived -/
  rx_packet_size : Nat
  /-- result of `rdm_read_header` at utils.c:118 (checksum/header valid) -/
  header_ok : Bool
  /-- `header.response_type` of the decoded response -/
  resp_type : Nat
  /-- `header.pid` of the decoded response -/
  resp_pid : Nat
  /-- `header.pdl` of the decoded response -/
  resp_pdl : Nat
  /-- `header.src_uid` of the decoded response (as a 48-bit number) -/
  resp_src_uid : Nat
  /-- `header.message_count` of the decoded response -/
  resp_mc : Nat
  /-- the 16-bit word decoded from the parameter data on an ACK_TIMER -/
  resp_timer_word : Nat
  /-- the 16-bit word decoded from the parameter data on a NACK_REASON -/
  resp_nack_word : Nat
  deriving DecidableEq, Repr

/-- The fields of the caller's `rdm_ack_t` written by `rdm_send_request`;
`none` in an `Option` field means the call left that field untouched. -/
structure RdmAck where
  err : Nat
  size : Nat
  src_uid : Nat
  pid : Nat
  type : Nat
  message_count : Nat
  pdl : Option Nat
  timer : Option Nat
  nack_reason : Option Nat
  deriving DecidableEq, Repr

/-- Result of one `rdm_send_request` call.  `buf` is the driver's DMX
buffer after the call (a byte-indexed function); `read_pd_called` records
whether `rdm_read_pd` was invoked at utils.c:135 to decode the response's
parameter data into the caller's `pd` output; `ack` is `none` when the
call returned without writing the caller's `rdm_ack_t`. -/
structure RdmReqResult where
  ret : Nat
  buf : Nat → Nat
  read_pd_called : Bool
  ack : Option RdmAck

/-- Embedding of `rdm_send_request` (utils.c:10-179).  `buf0` is the
driver's DMX buffer before the call, `reqBytes` the serialized RDM
request written by `rdm_write` (utils.c:61), `respBytes` the response
bytes deposited in the buffer by the receive path, and `pd_is_null`
whether the caller passed `pd == NULL`.  The snapshot `old_data`
(utils.c:56-58) holds the first `message_len + 2` bytes of `buf0`, and
`dmx_write(dmx_num, old_data, packet_size)` writes them back. -/
def rdm_send_request (env : RdmEnv) (buf0 reqBytes respBytes : Nat → Nat)
    (pd_is_null : Bool) : RdmReqResult :=
  -- header.message_len = 24 + transaction->pdl (utils.c:43)
  let packet_size := 24 + env.req_pdl + 2
  -- dmx_read(dmx_num, old_data, packet_size): snapshot of the buffer
  let old_data : Nat → Nat := buf0
  -- rdm_write(dmx_num, &header, format, pd): serialize the request
  let buf1 : Nat → Nat := fun i => if i < packet_size then reqBytes i else buf0 i
  -- dmx_write(dmx_num, old_data, packet_size): restore the snapshot
  let writeOld : (Nat → Nat) → Nat → Nat := fun b i =>
    if i < packet_size then old_data i else b i
  if !env.wait_sent_ok then
    -- utils.c:36-39: mutex released, nothing written, ack untouched
    { ret := 0, buf := buf0, read_pd_called := false, ack := none }
  else if !env.send_ok then
    -- utils.c:62-75
    { ret := 0, buf := writeOld buf1, read_pd_called := false,
      ack := some { err := DMX_OK, size := 0, src_uid := 0, pid := 0,
                    type := RDM_RESPONSE_TYPE_NONE, message_count := 0,
                    pdl := some 0, timer := none, nack_reason := none } }
  else if env.dest_is_broadcast && (env.req_pid != RDM_PID_DISC_UNIQUE_BRANCH) then
    -- utils.c:78-93: broadcast, no response expected
    { ret := 0, buf := writeOld buf1, read_pd_called := false,
      ack := some { err := DMX_OK, size := 0, src_uid := 0, pid := 0,
                    type := RDM_RESPONSE_TYPE_NONE, message_count := 0,
                    pdl := some 0, timer := none, nack_reason := none } }
  else
    -- dmx_receive deposits the inbound packet into the driver buffer
    let buf2 : Nat → Nat := fun i =>
      if i < env.rx_packet_size then respBytes i else buf1 i
    if env.rx_packet_size == 0 then
      -- utils.c:104-115: no response received
      { ret := 0, buf := writeOld buf2, read_pd_called := false,
        ack := some { err := env.rx_err, size := env.rx_packet_size,
                      src_uid := 0, pid := 0,
                      type := RDM_RESPONSE_TYPE_NONE, message_count := 0,
                      pdl := some 0, timer := none, nack_reason := none } }
    else if !env.header_ok then
      -- utils.c:118-129: invalid checksum or header
      { ret := 0, buf := writeOld buf2, read_pd_called := false,
        ack := some { err := env.rx_err, size := env.rx_packet_size,
                      src_uid := 0, pid := 0,
                      type := RDM_RESPONSE_TYPE_INVALID, message_count := 0,
                      pdl := some 0, timer := none, nack_reason := none } }
    else
      -- utils.c:131-137: note the test is `if (pd == NULL)`
      let read_pd_called :=
        ((env.resp_type == RDM_RESPONSE_TYPE_ACK) &&
          (env.resp_pid != RDM_PID_DISC_UNIQUE_BRANCH)) && pd_is_null
      -- utils.c:140-162: fill the ack struct
      let ack : RdmAck :=
        if !rdm_response_type_is_valid env.resp_type then
          { err := env.rx_err, size := env.rx_packet_size,
            src_uid := env.resp_src_uid, pid := env.resp_pid,
            type := RDM_RESPONSE_TYPE_INVALID, message_count := env.resp_mc,
            pdl := some env.resp_pdl, timer := none, nack_reason := none }
        else if env.resp_type == RDM_RESPONSE_TYPE_ACK_TIMER then
          { err := env.rx_err, size := env.rx_packet_size,
            src_uid := env.resp_src_uid, pid := env.resp_pid,
            type := env.resp_type, message_count := env.resp_mc,
            pdl := none, timer := some (dmx_ms_to_ticks (env.resp_timer_word * 10)),
            nack_reason := none }
        else if env.resp_type == RDM_RESPONSE_TYPE_NACK_REASON then
          { err := env.rx_err, size := env.rx_packet_size,
            src_uid := env.resp_src_uid, pid := env.resp_pid,
            type := env.resp_type, message_count := env.resp_mc,
            pdl := none, timer := none, nack_reason := some env.resp_nack_word }
        else
          { err := env.rx_err, size := env.rx_packet_size,
            src_uid := env.resp_src_uid, pid := env.resp_pid,
            type := env.resp_type, message_count := env.resp_mc,
            pdl := some env.resp_pdl, timer := none, nack_reason := none }
      -- utils.c:169-178: return the PDL, or 1 when the PDL is zero
      { ret := if env.resp_type == RDM_RESPONSE_TYPE_ACK then
                 (if env.resp_pdl == 0 then 1 else env.resp_pdl)
               else 0,
        buf := writeOld buf2, read_pd_called := read_pd_called,
        ack := some ack }

/-- A concrete environment in which a unicast GET request receives a
well-formed ACK response with two bytes of parameter data. -/
def ackEnv : RdmEnv :=
  { wait_sent_ok := true, send_ok := true, dest_is_broadcast := false,
    req_pid := 0x60, req_pdl := 0, rx_err := 0, rx_packet_size := 28,
    header_ok := true, resp_type := RDM_RESPONSE_TYPE_ACK,
    resp_pid := 0x60, resp_pdl := 2, resp_src_uid := 0x111122223333,
    resp_mc := 0, resp_timer_word := 0, resp_nack_word := 0 }

/-- A concrete environment in which a unicast request receives a
well-formed ACK response whose parameter-data length is zero. -/
def ackZeroPdlEnv : RdmEnv :=
  { wait_sent_ok := true, send_ok := true, dest_is_broadcast := false,
    req_pid := 0x1000, req_pdl := 0, rx_err := 0, rx_packet_size := 26,
    header_ok := true, resp_type := RDM_RESPONSE_TYPE_ACK,
    resp_pid := 0x1000, resp_pdl := 0, resp_src_uid := 0x111122223333,
    resp_mc := 0, resp_timer_word := 0, resp_nack_word := 0 }

/-! ## UART receive ISR (src/include/driver/dmx_default_intr_handler.h)

The receive-relevant part of `dmx_default_intr_handler` is embedded as a
step function on the driver's receive state.  One `RxEvent` is one
iteration of the handler's while loop whose snapshot of the interrupt
status selects an RX branch: either the data branch (RXFIFO_FULL,
FRAM_ERR, RS485_FRM_ERR, BRK_DET, RXFIFO_TOUT; lines 58-99) or the error
branch (RXFIFO_OVF, PARITY_ERR, RS485_PARITY_ERR; lines 100-116). -/

/-- The value `UINT16_MAX` stored into `rx_slot_idx` as the
packet-unusable sentinel (dmx_default_intr_handler.h:108). -/
def UINT16_MAX : Nat := 65535

/-- One RX-relevant invocation of the interrupt handler. -/
inductive RxEvent where
  /-- Data branch: `avail` bytes sit in the RX FIFO; `isBreak` when one of
  FRAM_ERR / RS485_FRM_ERR / BRK_DET is also set in the status snapshot;
  `isTimeout` when RXFIFO_TOUT is set. -/
  | data (avail : Nat) (isBreak : Bool) (isTimeout : Bool)
  /-- Error branch: RXFIFO_OVF or PARITY_ERR / RS485_PARITY_ERR;
  `isParity` when a parity bit is set in the snapshot. -/
  | err (isParity : Bool)
  deriving DecidableEq, Repr

/-- Receive-side driver state touched by the ISR: the receive slot index
`rx_slot_idx` (a `uint16_t`), the configured buffer size, and the enable
bit of the RXFIFO_TOUT interrupt. -/
structure RxState where
  rx_slot_idx : Nat
  rx_buffer_size : Nat
  tout_enabled : Bool
  deriving DecidableEq, Repr

/-- Result of one ISR iteration: the new state, whether
`uart_hal_rxfifo_rst` was called, and whether a data-error event was
posted for a later `receive()` to observe.  Posting the error event is
only a TODO in the source (dmx_default_intr_handler.h:73,105), so
`error_posted` is never set. -/
structure RxStepResult where
  st : RxState
  flushed : Bool
  error_posted : Bool
  deriving DecidableEq, Repr

/-- Embedding of the RX branches of `dmx_default_intr_handler`
(dmx_default_intr_handler.h:58-116).  In the data branch
`dmx_hal_readn_rxfifo` reads at most `frame_rem` of the `avail` FIFO
bytes and the slot index advances by the count read; when the buffer is
already full the FIFO is flushed instead; a frame/break indicator then
resets the slot index to 0, and the timeout bit toggles the RXFIFO_TOUT
interrupt enable.  In the error branch the slot index is set to the
`UINT16_MAX` sentinel and the FIFO is flushed. -/
def rx_isr_step (st : RxState) (ev : RxEvent) : RxStepResult :=
  match ev with
  | .data avail isBreak isTimeout =>
    -- lines 64-74: fetch data from the UART FIFO
    let fits := st.rx_slot_idx < st.rx_buffer_size
    let st1 :=
      if fits then
        let frame_rem := st.rx_buffer_size - st.rx_slot_idx
        let bytes_read := min avail frame_rem
        { st with rx_slot_idx := st.rx_slot_idx + bytes_read }
      else st
    -- lines 76-83: a frame/break indicator resets the slot counter
    let st2 := if isBreak then { st1 with rx_slot_idx := 0 } else st1
    -- lines 85-96: RXFIFO_TOUT handling
    let st3 :=
      if isTimeout then { st2 with tout_enabled := false }
      else { st2 with tout_enabled := true }
    { st := st3, flushed := !fits, error_posted := false }
  | .err _ =>
    -- lines 100-116: overflow or parity error
    { st := { st with rx_slot_idx := UINT16_MAX }, flushed := true,
      error_posted := false }

/-- Modelled from the spec: driver/dmx_ctrl.h (the owner of `rx_slot_idx`
for this handler) is not under src/; per the spec, `install` zeroes the
buffer state and the receive path starts a packet with `head ← 0`, so the
initial receive state has slot index 0 with the RXFIFO_TOUT interrupt
enabled. -/
def rx_init (buffer_size : Nat) : RxState :=
  { rx_slot_idx := 0, rx_buffer_size := buffer_size, tout_enabled := true }

/-- The driver state after the ISR has handled a sequence of RX events. -/
def rx_isr_run (st : RxState) (evs : List RxEvent) : RxState :=
  evs.foldl (fun s ev => (rx_isr_step s ev).st) st

/-! ## Task-side driver API (src/src/esp_dmx.c)

`dmx_set_mode`, `dmx_tx_packet`, `dmx_param_config` and
`dmx_driver_install` are embedded as pure functions.  Per-port state is
the optional driver object in the process-wide `p_dmx_obj` slot;
hardware register pokes become an ordered list of `HwAction` values. -/

/-- Modelled from the spec: esp_err.h is external.  ESP-IDF status
codes. -/
def ESP_OK : Int := 0

def ESP_FAIL : Int := -1

def ESP_ERR_NO_MEM : Int := 0x101

def ESP_ERR_INVALID_ARG : Int := 0x102

def ESP_ERR_INVALID_STATE : Int := 0x103

def ESP_ERR_TIMEOUT : Int := 0x107

/-- Modelled from the spec: dmx_types.h is not under src/; the driver
modes `DMX_MODE_RX` and `DMX_MODE_TX` with `DMX_MODE_MAX` bounding
them. -/
def DMX_MODE_RX : Nat := 0

def DMX_MODE_TX : Nat := 1

def DMX_MODE_MAX : Nat := 2

/-- Modelled from the spec: SOC_UART_NUM is a chip constant (3 UART
instances); the spec speaks of "typically 2-3" ports. -/
def DMX_NUM_MAX : Nat := 3

/-- Modelled from the spec: dmx_caps.h is not under src/; the DMX
maximum packet size is 513 bytes (1 start code + 512 slots). -/
def DMX_MAX_PACKET_SIZE : Nat := 513

/-- Modelled from the spec: dmx_caps.h is not under src/; the DMX baud
rate must lie between 245 and 255 kbit/s. -/
def DMX_MIN_BAUDRATE : Nat := 245000

def DMX_MAX_BAUDRATE : Nat := 255000

/-- Symbolic interrupt-mask tags for the HAL calls; the register values
are hardware constants and only their identity matters here. -/
def DMX_INTR_RX_ALL : Nat := 1

def DMX_INTR_TX_ALL : Nat := 2

def UART_INTR_MASK : Nat := 3

/-- Hardware side effects issued by the task-side API through the
UART HAL / GPIO layer. -/
inductive HwAction where
  | disableIntr (mask : Nat)
  | enableIntr (mask : Nat)
  | clearIntr (mask : Nat)
  | rxFifoReset
  | txFifoReset
  | setRts (level : Nat)
  | invertTxd (level : Nat)
  | rxTimingDisable
  deriving DecidableEq, Repr

/-- The `dmx_obj_t` fields that the embedded API functions touch.
`slot_idx` is a `uint16_t`; `intr_io_num` is `-1` when the sniffer is
disabled; `tx_done_sem` is true when the binary semaphore is
available. -/
structure DmxObj where
  mode : Nat
  slot_idx : Nat
  buf_idx : Nat
  buf_size : Nat
  intr_io_num : Int
  tx_last_brk_ts : Int
  tx_done_sem : Bool
  deriving DecidableEq, Repr

/-- Result of an API call that may change the per-port object and poke
hardware registers. -/
structure ApiResult where
  status : Int
  obj : Option DmxObj
  actions : List HwAction
  deriving DecidableEq, Repr

/-- Embedding of `dmx_set_mode` (esp_dmx.c:194-244). -/
def dmx_set_mode (dmx_num dmx_mode : Nat) (obj? : Option DmxObj) :
    ApiResult :=
  if ¬ dmx_num < DMX_NUM_MAX then
    { status := ESP_ERR_INVALID_ARG, obj := obj?, actions := [] }
  else if ¬ dmx_mode < DMX_MODE_MAX then
    { status := ESP_ERR_INVALID_ARG, obj := obj?, actions := [] }
  else
    match obj? with
    | none => { status := ESP_ERR_INVALID_STATE, obj := none, actions := [] }
    | some obj =>
      -- esp_dmx.c:199-204: if the driver is in the requested mode, do nothing
      if obj.mode = dmx_mode then
        { status := ESP_OK, obj := some obj, actions := [] }
      else if dmx_mode = DMX_MODE_RX then
        -- esp_dmx.c:206-221
        let objRx : DmxObj :=
          { obj with slot_idx := 65535, buf_idx := 0, mode := DMX_MODE_RX }
        { status := ESP_OK,
          obj := some objRx,
          actions := [HwAction.disableIntr DMX_INTR_TX_ALL,
                      HwAction.clearIntr UART_INTR_MASK,
                      HwAction.rxFifoReset,
                      HwAction.setRts 1,
                      HwAction.enableIntr DMX_INTR_RX_ALL] }
      else
        -- esp_dmx.c:222-241 (dmx_mode == DMX_MODE_TX)
        let timingActs : List HwAction :=
          if obj.intr_io_num ≠ -1 then [HwAction.rxTimingDisable] else []
        let objTx : DmxObj :=
          { obj with intr_io_num := -1, slot_idx := 0, mode := DMX_MODE_TX,
                     tx_done_sem := true }
        { status := ESP_OK,
          obj := some objTx,
          actions := [HwAction.disableIntr DMX_INTR_RX_ALL,
                      HwAction.clearIntr UART_INTR_MASK] ++ timingActs ++
                     [HwAction.txFifoReset, HwAction.setRts 0] }

/-- Embedding of `get_brk_us` (esp_dmx.c:33-36):
`ceil(break_num * (1000000.0 / baudrate))`, written as an exact ceiling
division over the naturals (for the in-spec parameter ranges the double
computation is exact enough to agree with the rational ceiling). -/
def get_brk_us (baudrate break_num : Nat) : Nat :=
  (break_num * 1000000 + (baudrate - 1)) / baudrate

/-- Embedding of `get_mab_us` (esp_dmx.c:38-41), same arithmetic with the
idle bit count. -/
def get_mab_us (baudrate idle_num : Nat) : Nat :=
  (idle_num * 1000000 + (baudrate - 1)) / baudrate

/-- Result of `dmx_tx_packet`: the status, the per-port object after the
call, the number of bytes pushed into the TX FIFO, the total microseconds
spent busy-waiting in `ets_delay_us`, whether the TX line was inverted to
drive a break edge, and the hardware actions issued. -/
structure TxResult where
  status : Int
  obj : Option DmxObj
  fifo_written : Nat
  busy_wait_us : Nat
  drove_break : Bool
  actions : List HwAction
  deriving DecidableEq, Repr

/-- Embedding of `dmx_tx_packet` (esp_dmx.c:565-626).  `now` is
`esp_timer_get_time()`; `maxBrkToBrk` is the `DMX_TX_MAX_BRK_TO_BRK_US`
macro (dmx_caps.h is not under src/, so it is passed in); `baudrate`,
`break_num` and `idle_num` are the values read back from the UART HAL;
`fifo_space` is the free space in the TX FIFO, bounding what
`uart_hal_write_txfifo` accepts. -/
def dmx_tx_packet (dmx_num : Nat) (obj? : Option DmxObj)
    (now maxBrkToBrk : Int) (baudrate break_num idle_num fifo_space : Nat) :
    TxResult :=
  if ¬ dmx_num < DMX_NUM_MAX then
    { status := ESP_ERR_INVALID_ARG, obj := obj?, fifo_written := 0,
      busy_wait_us := 0, drove_break := false, actions := [] }
  else
    match obj? with
    | none =>
      { status := ESP_ERR_INVALID_STATE, obj := none, fifo_written := 0,
        busy_wait_us := 0, drove_break := false, actions := [] }
    | some obj =>
      if ¬ obj.mode = DMX_MODE_TX then
        -- esp_dmx.c:568: "not in tx mode"
        { status := ESP_ERR_INVALID_STATE, obj := some obj,
          fifo_written := 0, busy_wait_us := 0, drove_break := false,
          actions := [] }
      else if ¬ obj.tx_done_sem then
        -- esp_dmx.c:571-572: only tx when a frame is not being written
        { status := ESP_FAIL, obj := some obj, fifo_written := 0,
          busy_wait_us := 0, drove_break := false, actions := [] }
      else
        let obj0 := { obj with tx_done_sem := false }
        -- esp_dmx.c:588-609: send a manual break/MAB only when the
        -- stream went discontinuous for at least DMX_TX_MAX_BRK_TO_BRK_US
        let needBreak : Bool := now - obj.tx_last_brk_ts ≥ maxBrkToBrk
        let brk_us := get_brk_us baudrate break_num
        let mab_us := get_mab_us baudrate idle_num
        let obj1 :=
          if needBreak then { obj0 with tx_last_brk_ts := now } else obj0
        let breakActs : List HwAction :=
          if needBreak then [HwAction.invertTxd 1, HwAction.invertTxd 0]
          else []
        let waited := if needBreak then brk_us + mab_us else 0
        -- esp_dmx.c:611-618: write data to the tx FIFO
        let len := obj1.buf_size - obj1.slot_idx
        let written := min len fifo_space
        let obj2 := { obj1 with slot_idx := written }
        { status := ESP_OK, obj := some obj2, fifo_written := written,
          busy_wait_us := waited, drove_break := needBreak,
          actions := breakActs ++ [HwAction.enableIntr DMX_INTR_TX_ALL] }

/-- A concrete driver in TX mode, idle, whose previous break was driven
at time 0. -/
def txReadyObj : DmxObj :=
  { mode := DMX_MODE_TX, slot_idx := 0, buf_idx := 0, buf_size := 513,
    intr_io_num := -1, tx_last_brk_ts := 0, tx_done_sem := true }

/-! ## Driver installation (src/src/esp_dmx.c:45-147, 340-394)

The spec's `install(port, config)` covers both UART parameter
configuration (`dmx_param_config`) and driver installation
(`dmx_driver_install`); each is embedded from its source and the spec's
combined entry point runs them in sequence. -/

/-- The `dmx_config_t` fields that `dmx_param_config` inspects. -/
structure DmxConfig where
  baudrate : Nat
  break_num : Nat
  idle_num : Nat
  deriving DecidableEq, Repr

/-- Embedding of `dmx_param_config` (esp_dmx.c:340-394).  The break/MAB
duration bounds `DMX_TX_MIN_SPACE_FOR_BRK_US`,
`DMX_TX_MIN_MRK_AFTER_BRK_US` and `DMX_TX_MAX_MRK_AFTER_BRK_US` live in
dmx_caps.h, which is not under src/, so they are passed in. -/
def dmx_param_config_checks (cfg : DmxConfig)
    (minBrkUs minMabUs maxMabUs : Nat) : Int :=
  if ¬ cfg.idle_num ≤ 0x3ff then ESP_ERR_INVALID_ARG
  else if cfg.baudrate < DMX_MIN_BAUDRATE ∨
      cfg.baudrate > DMX_MAX_BAUDRATE then ESP_ERR_INVALID_ARG
  else if get_brk_us cfg.baudrate cfg.break_num < minBrkUs then
    ESP_ERR_INVALID_ARG
  else if get_mab_us cfg.baudrate cfg.idle_num < minMabUs ∨
      get_mab_us cfg.baudrate cfg.idle_num > maxMabUs then
    ESP_ERR_INVALID_ARG
  else ESP_OK

/-- Argument validation of `dmx_param_config` (esp_dmx.c:341-342): the
port bound and the null check on the configuration, followed by the
specification checks above. -/
def dmx_param_config (dmx_num : Nat) (config? : Option DmxConfig)
    (minBrkUs minMabUs maxMabUs : Nat) : Int :=
  if ¬ dmx_num < DMX_NUM_MAX then ESP_ERR_INVALID_ARG
  else
    match config? with
    | none => ESP_ERR_INVALID_ARG
    | some cfg => dmx_param_config_checks cfg minBrkUs minMabUs maxMabUs

/-- Embedding of `dmx_driver_install` (esp_dmx.c:45-147).
`slot_installed` is whether `p_dmx_obj[dmx_num]` is non-null before the
call; `driver_alloc_ok` / `buffer_alloc_ok` are the outcomes of the two
heap allocations; `intr_alloc_err` is `some e` when `esp_intr_alloc`
fails with status `e`.  The result pairs the status with whether a live
driver remains registered in the slot (on allocation or interrupt
failure `dmx_driver_delete` unwinds the partial installation). -/
def dmx_driver_install (dmx_num buffer_size : Nat) (slot_installed : Bool)
    (driver_alloc_ok buffer_alloc_ok : Bool) (intr_alloc_err : Option Int) :
    Int × Bool :=
  if ¬ dmx_num < DMX_NUM_MAX then (ESP_ERR_INVALID_ARG, slot_installed)
  else if ¬ (0 < buffer_size ∧ buffer_size ≤ DMX_MAX_PACKET_SIZE) then
    (ESP_ERR_INVALID_ARG, slot_installed)
  else if slot_installed then (ESP_ERR_INVALID_STATE, true)
  else if ¬ driver_alloc_ok then (ESP_ERR_NO_MEM, false)
  else if ¬ buffer_alloc_ok then (ESP_ERR_NO_MEM, false)
  else
    match intr_alloc_err with
    | some e => (e, false)
    | none => (ESP_OK, true)

/-- The spec's combined `install(port, config)`: configure the UART
parameters, then install the driver (the order application code uses the
two source functions in). -/
def install (dmx_num buffer_size : Nat) (config? : Option DmxConfig)
    (minBrkUs minMabUs maxMabUs : Nat) (slot_installed : Bool)
    (driver_alloc_ok buffer_alloc_ok : Bool) (intr_alloc_err : Option Int) :
    Int × Bool :=
  let err := dmx_param_config dmx_num config? minBrkUs minMabUs maxMabUs
  if err ≠ ESP_OK then (err, slot_installed)
  else
    dmx_driver_install dmx_num buffer_size slot_installed driver_alloc_ok
      buffer_alloc_ok intr_alloc_err

/-- All configuration checks of `dmx_param_config` pass. -/
def param_config_ok (cfg : DmxConfig) (minBrkUs minMabUs maxMabUs : Nat) :
    Prop :=
  cfg.idle_num ≤ 0x3ff ∧
    DMX_MIN_BAUDRATE ≤ cfg.baudrate ∧ cfg.baudrate ≤ DMX_MAX_BAUDRATE ∧
    minBrkUs ≤ get_brk_us cfg.baudrate cfg.break_num ∧
    minMabUs ≤ get_mab_us cfg.baudrate cfg.idle_num ∧
    get_mab_us cfg.baudrate cfg.idle_num ≤ maxMabUs

instance (cfg : DmxConfig) (a b c : Nat) :
    Decidable (param_config_ok cfg a b c) := by
  unfold param_config_ok
  infer_instance

lemma tnTrace_map (n : Nat) :
    ∀ t0, t0 < 256 →
      tnTrace ⟨t0⟩ n = (List.range n).map (fun i => (t0 + i) % 256) := by
  induction n with
  | zero => intro t0 _; simp [tnTrace]
  | succ n ih =>
    intro t0 h
    rw [List.range_succ_eq_map]
    simp only [tnTrace, rdm_send_request_tn, rdm_get_transaction_num,
      dmx_send_tn, List.map_cons, List.map_map]
    rw [show (t0 + 0) % 256 = t0 by omega]
    congr 1
    rw [ih ((t0 + 1) % 256) (Nat.mod_lt _ (by decide))]
    apply List.map_congr_left
    intro i _
    simp only [Function.comp_apply]
    rw [Nat.mod_add_mod]
    congr 1
    omega

lemma range_map_mod_eq_rotate (t0 : Nat) :
    (List.range 256).map (fun i => (t0 + i) % 256) =
      (List.range 256).rotate t0 := by
  apply List.ext_getElem
  · simp
  · intro i h1 h2
    simp only [List.getElem_map, List.getElem_range, List.getElem_rotate,
      List.length_range]
    rw [Nat.add_comm]

lemma count_tnTrace (t0 : Nat) (h : t0 < 256) (v : Nat) (hv : v < 256) :
    (tnTrace ⟨t0⟩ 256).count v = 1 := by
  rw [tnTrace_map 256 t0 h, range_map_mod_eq_rotate t0,
    (List.rotate_perm (List.range 256) t0).count_eq]
  exact List.count_eq_one_of_mem (List.nodup_range 256)
    (List.mem_range.mpr hv)

/-- C1 (counterexample): the claim says each `rdm_send_request` call
increments `rdm.tn` and places the NEW (incremented) value in the request
header's `tn` field.  In the code the header receives the value read by
`rdm_get_transaction_num` BEFORE the packet is sent, so from counter
state 5 the header carries 5 while the post-call counter is 6: the header
value differs from the new counter value. -/
theorem rdm_send_request_tn_not_incremented_value :
    (rdm_send_request_tn ⟨5⟩).1 = 5 ∧
      (rdm_send_request_tn ⟨5⟩).2.tn = 6 ∧
      (rdm_send_request_tn ⟨5⟩).1 ≠ (rdm_send_request_tn ⟨5⟩).2.tn := by
  decide

/-- C1 (amended): each (successful) `rdm_send_request` call places the
CURRENT value of the port's 8-bit transaction counter `rdm.tn` in the
request header's `tn` field; the counter is incremented modulo 256 when
the packet is sent; and 256 consecutive calls produce transaction numbers
covering the values 0 through 255 exactly once. -/
theorem rdm_send_request_tn_sequence (d : RdmDriverTn) (h : d.tn < 256) :
    (rdm_send_request_tn d).1 = d.tn ∧
      (rdm_send_request_tn d).2.tn = (d.tn + 1) % 256 ∧
      ∀ v, v < 256 → (tnTrace d 256).count v = 1 := by
  refine ⟨rfl, rfl, ?_⟩
  intro v hv
  obtain ⟨t0⟩ := d
  exact count_tnTrace t0 h v hv

/-- C1 (witness): the amended theorem applied at the concrete counter
state 7. -/
theorem rdm_send_request_tn_sequence_witness :
    (7 : Nat) < 256 ∧
      ((rdm_send_request_tn ⟨7⟩).1 = 7 ∧
        (rdm_send_request_tn ⟨7⟩).2.tn = (7 + 1) % 256 ∧
        ∀ v, v < 256 → (tnTrace ⟨7⟩ 256).count v = 1) :=
  ⟨by decide, rdm_send_request_tn_sequence ⟨7⟩ (by decide)⟩

/-- C2: the claim says that on an ACK for a PID other than
DISC_UNIQUE_BRANCH the parameter data is decoded into `pd` when `pd` is
non-null, and that no copy is performed when `pd` is null.  The code's
test at utils.c:134 is inverted (`if (pd == NULL)`): at the concrete ACK
environment the copy is skipped when `pd != NULL` and attempted (into a
null destination) when `pd == NULL`. -/
theorem rdm_send_request_pd_copy_inverted :
    (rdm_send_request ackEnv (fun _ => 0) (fun _ => 0) (fun _ => 0)
        false).read_pd_called = false ∧
      (rdm_send_request ackEnv (fun _ => 0) (fun _ => 0) (fun _ => 0)
        true).read_pd_called = true := by
  constructor <;> rfl

/-- C3 (counterexample): the claim says `rdm_send_request` returns the
response's `pdl` on an ACK.  On an ACK whose `pdl` is 0 the code returns
1 (utils.c:170-171), not the `pdl` value 0. -/
theorem rdm_send_request_ack_zero_pdl_returns_one :
    (rdm_send_request ackZeroPdlEnv (fun _ => 0) (fun _ => 0) (fun _ => 0)
        false).ret = 1 ∧
      ackZeroPdlEnv.resp_pdl = 0 := by
  constructor <;> rfl

/-- C3 (amended): `rdm_send_request` returns the response's `pdl` when
the received response type is ACK and the `pdl` is nonzero, returns 1 on
an ACK whose `pdl` is zero, and returns 0 in every other case (mutex or
wait-sent failure, send failure, broadcast with no response expected,
timeout with no packet, invalid checksum or header, or any non-ACK
response type). -/
theorem rdm_send_request_return_value (env : RdmEnv)
    (buf0 reqBytes respBytes : Nat → Nat) (pd_is_null : Bool) :
    (rdm_send_request env buf0 reqBytes respBytes pd_is_null).ret =
      if env.wait_sent_ok && env.send_ok &&
          !(env.dest_is_broadcast && (env.req_pid != RDM_PID_DISC_UNIQUE_BRANCH)) &&
          (env.rx_packet_size != 0) && env.header_ok &&
          (env.resp_type == RDM_RESPONSE_TYPE_ACK) then
        (if env.resp_pdl == 0 then 1 else env.resp_pdl)
      else 0 := by
  simp only [rdm_send_request]
  split_ifs <;> simp_all

/-- C6: `rdm_send_request` snapshots the first `message_len + 2` bytes of
the port's DMX buffer before writing the RDM request and writes the
snapshot back on every return path, so those buffer bytes equal their
pre-call contents when the function returns. -/
theorem rdm_send_request_restores_buffer (env : RdmEnv)
    (buf0 reqBytes respBytes : Nat → Nat) (pd_is_null : Bool) (i : Nat)
    (h : i < 24 + env.req_pdl + 2) :
    (rdm_send_request env buf0 reqBytes respBytes pd_is_null).buf i =
      buf0 i := by
  simp only [rdm_send_request]
  split_ifs <;> simp [h]

/-- C6 (witness): the restoration theorem applied to a concrete ACK
exchange at buffer index 3, where the request byte written over the
buffer differs from the pre-call byte. -/
theorem rdm_send_request_restores_buffer_witness :
    (3 < 24 + ackEnv.req_pdl + 2) ∧
      (rdm_send_request ackEnv (fun i => i) (fun _ => 0xCC) (fun _ => 0xAA)
          false).buf 3 = (fun i => i) 3 :=
  ⟨by decide,
    rdm_send_request_restores_buffer ackEnv (fun i => i) (fun _ => 0xCC)
      (fun _ => 0xAA) false 3 (by decide)⟩

/-- C4 (counterexample): the claim says `head ≤ buffer_size` holds in
every state reachable by RX interrupt events.  From the initial state of
a driver with the standard 513-byte buffer, a single RX overflow
interrupt sets the slot index to the sentinel 65535, which exceeds the
buffer size. -/
theorem rx_isr_overflow_violates_head_bound :
    (rx_isr_run (rx_init 513) [RxEvent.err false]).rx_slot_idx = 65535 ∧
      ¬ (rx_isr_run (rx_init 513) [RxEvent.err false]).rx_slot_idx ≤ 513 := by
  decide

lemma rx_isr_step_preserves_size (st : RxState) (ev : RxEvent) :
    (rx_isr_step st ev).st.rx_buffer_size = st.rx_buffer_size := by
  cases ev with
  | data avail isBreak isTimeout =>
    simp only [rx_isr_step]
    split_ifs <;> rfl
  | err isParity => rfl

lemma rx_isr_step_inv (st : RxState) (ev : RxEvent)
    (h : st.rx_slot_idx ≤ st.rx_buffer_size ∨ st.rx_slot_idx = UINT16_MAX) :
    (rx_isr_step st ev).st.rx_slot_idx ≤ (rx_isr_step st ev).st.rx_buffer_size ∨
      (rx_isr_step st ev).st.rx_slot_idx = UINT16_MAX := by
  cases ev with
  | data avail isBreak isTimeout =>
    simp only [rx_isr_step]
    split_ifs <;> simp_all <;> omega
  | err isParity =>
    simp [rx_isr_step]

/-- C4 (amended): for the UART receive ISR modeled as a step relation on
the driver state, every state reachable from the initial state by any
sequence of RX interrupt events has its receive slot index either at most
the configured buffer size or equal to the `UINT16_MAX` sentinel that the
overflow/parity branch installs to mark the packet unusable. -/
theorem rx_isr_head_bounded_or_sentinel (buffer_size : Nat)
    (evs : List RxEvent) :
    (rx_isr_run (rx_init buffer_size) evs).rx_slot_idx ≤
        (rx_isr_run (rx_init buffer_size) evs).rx_buffer_size ∨
      (rx_isr_run (rx_init buffer_size) evs).rx_slot_idx = UINT16_MAX := by
  have main : ∀ (l : List RxEvent) (st : RxState),
      st.rx_slot_idx ≤ st.rx_buffer_size ∨ st.rx_slot_idx = UINT16_MAX →
      (rx_isr_run st l).rx_slot_idx ≤ (rx_isr_run st l).rx_buffer_size ∨
        (rx_isr_run st l).rx_slot_idx = UINT16_MAX := by
    intro l
    induction l with
    | nil => intro st h; exact h
    | cons ev tl ih =>
      intro st h
      exact ih _ (rx_isr_step_inv st ev h)
  exact main evs (rx_init buffer_size) (Or.inl (Nat.zero_le _))

/-- C8 (counterexample): the claim says that on an overflow or
parity-error interrupt the ISR also raises an error flag surfaced on the
next `receive()`.  At a concrete mid-packet state the error branch sets
the sentinel and flushes the FIFO but posts no error: both TODO sites
(dmx_default_intr_handler.h:73,105) are unimplemented, so `error_posted`
is false. -/
theorem rx_isr_error_branch_posts_no_error :
    (rx_isr_step ⟨10, 513, true⟩ (RxEvent.err true)).error_posted = false ∧
      (rx_isr_step ⟨10, 513, true⟩ (RxEvent.err false)).error_posted = false := by
  decide

/-- C8 (amended): on an RX FIFO overflow or parity-error interrupt, the
UART ISR sets the receive slot index to the sentinel maximum value
(marking the packet unusable) and flushes the RX FIFO, but raises no
error flag: posting the data-error event is left as a TODO in the source,
so nothing is surfaced to a later `receive()` call. -/
theorem rx_isr_error_branch_effect (st : RxState) (isParity : Bool) :
    rx_isr_step st (RxEvent.err isParity) =
      { st := { st with rx_slot_idx := UINT16_MAX }, flushed := true,
        error_posted := false } := by
  rfl

/-- C10: `dmx_set_mode` is idempotent — for an installed port, requesting
the mode the driver is already in returns `ESP_OK`, leaves every driver
field unchanged, and issues no hardware action (no interrupt enable or
disable, no FIFO reset). -/
theorem dmx_set_mode_idempotent (dmx_num dmx_mode : Nat) (obj : DmxObj)
    (h1 : dmx_num < DMX_NUM_MAX) (h2 : dmx_mode < DMX_MODE_MAX)
    (h3 : obj.mode = dmx_mode) :
    dmx_set_mode dmx_num dmx_mode (some obj) =
      { status := ESP_OK, obj := some obj, actions := [] } := by
  simp [dmx_set_mode, h1, h2, h3]

/-- C10 (witness): the idempotence theorem applied to a concrete
installed driver already in TX mode. -/
theorem dmx_set_mode_idempotent_witness :
    ((1 : Nat) < DMX_NUM_MAX ∧ DMX_MODE_TX < DMX_MODE_MAX ∧
        (⟨DMX_MODE_TX, 0, 0, 513, -1, 0, true⟩ : DmxObj).mode = DMX_MODE_TX) ∧
      dmx_set_mode 1 DMX_MODE_TX (some ⟨DMX_MODE_TX, 0, 0, 513, -1, 0, true⟩) =
        { status := ESP_OK,
          obj := some ⟨DMX_MODE_TX, 0, 0, 513, -1, 0, true⟩,
          actions := [] } :=
  ⟨⟨by decide, by decide, by decide⟩,
    dmx_set_mode_idempotent 1 DMX_MODE_TX _ (by decide) (by decide) rfl⟩

/-- C5: `dmx_tx_packet` fails and writes no data to the TX FIFO when the
driver's mode is not TX (returning `ESP_ERR_INVALID_STATE`) and when the
previous transmission is still in flight, i.e. the `tx_done_sem` take
fails (returning `ESP_FAIL`); in both failure cases the driver object is
returned unchanged, no bytes reach the FIFO, and no hardware action is
issued. -/
theorem dmx_tx_packet_failure_paths (dmx_num : Nat) (obj : DmxObj)
    (now maxBrkToBrk : Int) (baudrate break_num idle_num fifo_space : Nat)
    (h : dmx_num < DMX_NUM_MAX) :
    (obj.mode ≠ DMX_MODE_TX →
      dmx_tx_packet dmx_num (some obj) now maxBrkToBrk baudrate break_num
          idle_num fifo_space =
        { status := ESP_ERR_INVALID_STATE, obj := some obj,
          fifo_written := 0, busy_wait_us := 0, drove_break := false,
          actions := [] }) ∧
    (obj.mode = DMX_MODE_TX → obj.tx_done_sem = false →
      dmx_tx_packet dmx_num (some obj) now maxBrkToBrk baudrate break_num
          idle_num fifo_space =
        { status := ESP_FAIL, obj := some obj, fifo_written := 0,
          busy_wait_us := 0, drove_break := false, actions := [] }) := by
  constructor
  · intro hm
    simp [dmx_tx_packet, h, hm]
  · intro hm hs
    simp [dmx_tx_packet, h, hm, hs]

/-- C5 (witness): the failure-path theorem applied to a concrete driver
in RX mode (first conjunct) at port 0. -/
theorem dmx_tx_packet_failure_paths_witness :
    (0 : Nat) < DMX_NUM_MAX ∧
      ((⟨DMX_MODE_RX, 0, 0, 513, -1, 0, true⟩ : DmxObj).mode ≠ DMX_MODE_TX →
        dmx_tx_packet 0 (some ⟨DMX_MODE_RX, 0, 0, 513, -1, 0, true⟩) 5000
            1000000 250000 44 12 128 =
          { status := ESP_ERR_INVALID_STATE,
            obj := some ⟨DMX_MODE_RX, 0, 0, 513, -1, 0, true⟩,
            fifo_written := 0, busy_wait_us := 0, drove_break := false,
            actions := [] }) :=
  ⟨by decide,
    (dmx_tx_packet_failure_paths 0 ⟨DMX_MODE_RX, 0, 0, 513, -1, 0, true⟩
        5000 1000000 250000 44 12 128 (by decide)).1⟩

/-- C9 (counterexample): the claim says that a `send` issued less than
1204 microseconds after the previous packet busy-waits until at least
1204 microseconds have elapsed before driving the break edge.  Called 100
microseconds after the previous break (with `DMX_TX_MAX_BRK_TO_BRK_US`
at its 1-second value), `dmx_tx_packet` performs no busy-wait at all,
drives no break edge, and immediately writes the packet to the TX
FIFO. -/
theorem dmx_tx_packet_no_min_spacing_wait :
    (100 : Int) - txReadyObj.tx_last_brk_ts < 1204 ∧
      (dmx_tx_packet 0 (some txReadyObj) 100 1000000 250000 44 3
          128).busy_wait_us = 0 ∧
      (dmx_tx_packet 0 (some txReadyObj) 100 1000000 250000 44 3
          128).drove_break = false ∧
      (dmx_tx_packet 0 (some txReadyObj) 100 1000000 250000 44 3
          128).status = ESP_OK ∧
      (dmx_tx_packet 0 (some txReadyObj) 100 1000000 250000 44 3
          128).fifo_written = 128 := by
  decide

/-- C9 (amended): `dmx_tx_packet` enforces no minimum packet-to-packet
spacing.  When called less than `DMX_TX_MAX_BRK_TO_BRK_US` after the
previously driven break it performs no busy-wait and drives no break edge
(the UART hardware's appended break frames the continuous stream), and
only when at least `DMX_TX_MAX_BRK_TO_BRK_US` has elapsed does it
busy-wait the break plus mark-after-break durations inline while driving
the break edge itself. -/
theorem dmx_tx_packet_break_logic (dmx_num : Nat) (obj : DmxObj)
    (now maxBrkToBrk : Int) (baudrate break_num idle_num fifo_space : Nat)
    (h1 : dmx_num < DMX_NUM_MAX) (h2 : obj.mode = DMX_MODE_TX)
    (h3 : obj.tx_done_sem = true) :
    (now - obj.tx_last_brk_ts < maxBrkToBrk →
      (dmx_tx_packet dmx_num (some obj) now maxBrkToBrk baudrate break_num
          idle_num fifo_space).busy_wait_us = 0 ∧
      (dmx_tx_packet dmx_num (some obj) now maxBrkToBrk baudrate break_num
          idle_num fifo_space).drove_break = false ∧
      (dmx_tx_packet dmx_num (some obj) now maxBrkToBrk baudrate break_num
          idle_num fifo_space).status = ESP_OK) ∧
    (now - obj.tx_last_brk_ts ≥ maxBrkToBrk →
      (dmx_tx_packet dmx_num (some obj) now maxBrkToBrk baudrate break_num
          idle_num fifo_space).busy_wait_us =
        get_brk_us baudrate break_num + get_mab_us baudrate idle_num ∧
      (dmx_tx_packet dmx_num (some obj) now maxBrkToBrk baudrate break_num
          idle_num fifo_space).drove_break = true) := by
  constructor
  · intro hlt
    have hb : ¬ now - obj.tx_last_brk_ts ≥ maxBrkToBrk := by omega
    simp [dmx_tx_packet, h1, h2, h3, hb]
  · intro hge
    simp [dmx_tx_packet, h1, h2, h3, hge]

/-- C9 (witness): the amended theorem applied to `txReadyObj` called 100
microseconds after the previous break. -/
theorem dmx_tx_packet_break_logic_witness :
    ((0 : Nat) < DMX_NUM_MAX ∧ txReadyObj.mode = DMX_MODE_TX ∧
        txReadyObj.tx_done_sem = true) ∧
      ((100 : Int) - txReadyObj.tx_last_brk_ts < 1000000 →
        (dmx_tx_packet 0 (some txReadyObj) 100 1000000 250000 44 3
            128).busy_wait_us = 0 ∧
        (dmx_tx_packet 0 (some txReadyObj) 100 1000000 250000 44 3
            128).drove_break = false ∧
        (dmx_tx_packet 0 (some txReadyObj) 100 1000000 250000 44 3
            128).status = ESP_OK) :=
  ⟨⟨by decide, by decide, by decide⟩,
    (dmx_tx_packet_break_logic 0 txReadyObj 100 1000000 250000 44 3 128
        (by decide) (by decide) (by decide)).1⟩

lemma dmx_param_config_checks_eq (cfg : DmxConfig)
    (minBrkUs minMabUs maxMabUs : Nat) :
    dmx_param_config_checks cfg minBrkUs minMabUs maxMabUs =
      if param_config_ok cfg minBrkUs minMabUs maxMabUs then ESP_OK
      else ESP_ERR_INVALID_ARG := by
  unfold dmx_param_config_checks param_config_ok
  set B := get_brk_us cfg.baudrate cfg.break_num with hB
  set M := get_mab_us cfg.baudrate cfg.idle_num with hM
  split_ifs <;> first | rfl | omega

lemma dmx_param_config_eq (dmx_num : Nat) (cfg : DmxConfig)
    (minBrkUs minMabUs maxMabUs : Nat) (h1 : dmx_num < DMX_NUM_MAX) :
    dmx_param_config dmx_num (some cfg) minBrkUs minMabUs maxMabUs =
      if param_config_ok cfg minBrkUs minMabUs maxMabUs then ESP_OK
      else ESP_ERR_INVALID_ARG := by
  unfold dmx_param_config
  rw [if_neg (not_not_intro h1)]
  exact dmx_param_config_checks_eq cfg minBrkUs minMabUs maxMabUs

/-- C7 (counterexample): the claim says install fails exactly when the
port is already installed, the baud rate is outside 245-255 kbit/s, or
memory cannot be reserved.  With a free port, an in-range 250 kbit/s baud
rate and all allocations succeeding, a configuration whose `idle_num`
exceeds 0x3ff still fails with `ESP_ERR_INVALID_ARG`
(esp_dmx.c:343). -/
theorem install_fails_outside_claimed_cases :
    install 0 513 (some ⟨250000, 44, 0x400⟩) 92 12 1000000 false true true
        none = (ESP_ERR_INVALID_ARG, false) ∧
      DMX_MIN_BAUDRATE ≤ 250000 ∧ 250000 ≤ DMX_MAX_BAUDRATE := by
  decide

/-- C7 (amended): for a valid port and buffer size, install succeeds
exactly when the configuration passes every DMX-specification check
(idle_num in range, baud rate within 245-255 kbit/s, break and
mark-after-break durations within bounds), the port has no driver yet,
both heap allocations succeed and the interrupt allocation succeeds; it
returns `ESP_ERR_INVALID_STATE` (slot still live) when a driver is
already installed, `ESP_ERR_INVALID_ARG` (slot unchanged) when the baud
rate is out of range or another configuration check fails, `ESP_ERR_NO_MEM`
with the partial allocation unwound when memory cannot be reserved, and
the interrupt allocator's error (unwound) when `esp_intr_alloc` fails. -/
theorem install_error_characterization (dmx_num buffer_size : Nat)
    (cfg : DmxConfig) (minBrkUs minMabUs maxMabUs : Nat)
    (slot_installed driver_alloc_ok buffer_alloc_ok : Bool)
    (intr_alloc_err : Option Int) (h1 : dmx_num < DMX_NUM_MAX)
    (h2 : 0 < buffer_size ∧ buffer_size ≤ DMX_MAX_PACKET_SIZE)
    (h3 : ∀ e, intr_alloc_err = some e → e ≠ ESP_OK) :
    ((install dmx_num buffer_size (some cfg) minBrkUs minMabUs maxMabUs
          slot_installed driver_alloc_ok buffer_alloc_ok
          intr_alloc_err).1 = ESP_OK ↔
        (param_config_ok cfg minBrkUs minMabUs maxMabUs ∧
          slot_installed = false ∧ driver_alloc_ok = true ∧
          buffer_alloc_ok = true ∧ intr_alloc_err = none)) ∧
    (param_config_ok cfg minBrkUs minMabUs maxMabUs → slot_installed = true →
      install dmx_num buffer_size (some cfg) minBrkUs minMabUs maxMabUs
          slot_installed driver_alloc_ok buffer_alloc_ok intr_alloc_err =
        (ESP_ERR_INVALID_STATE, true)) ∧
    (¬ param_config_ok cfg minBrkUs minMabUs maxMabUs →
      install dmx_num buffer_size (some cfg) minBrkUs minMabUs maxMabUs
          slot_installed driver_alloc_ok buffer_alloc_ok intr_alloc_err =
        (ESP_ERR_INVALID_ARG, slot_installed)) ∧
    (param_config_ok cfg minBrkUs minMabUs maxMabUs → slot_installed = false →
      (driver_alloc_ok = false ∨ buffer_alloc_ok = false) →
      install dmx_num buffer_size (some cfg) minBrkUs minMabUs maxMabUs
          slot_installed driver_alloc_ok buffer_alloc_ok intr_alloc_err =
        (ESP_ERR_NO_MEM, false)) := by
  have hpc := dmx_param_config_eq dmx_num cfg minBrkUs minMabUs maxMabUs h1
  obtain ⟨h2a, h2b⟩ := h2
  by_cases hc : param_config_ok cfg minBrkUs minMabUs maxMabUs
  · have herr : dmx_param_config dmx_num (some cfg) minBrkUs minMabUs
        maxMabUs = ESP_OK := by rw [hpc, if_pos hc]
    refine ⟨?_, ?_, fun hnp => absurd hc hnp, ?_⟩
    · cases slot_installed <;> cases driver_alloc_ok <;>
        cases buffer_alloc_ok <;> rcases intr_alloc_err with _ | e <;>
        simp_all [install, dmx_driver_install, ESP_OK, ESP_ERR_NO_MEM,
          ESP_ERR_INVALID_STATE]
    · intro _ hs
      subst hs
      simp [install, herr, dmx_driver_install, h1, h2a, h2b]
    · intro _ hs hd
      subst hs
      rcases hd with hd | hd
      · subst hd
        simp [install, herr, dmx_driver_install, h1, h2a, h2b]
      · subst hd
        cases driver_alloc_ok <;>
          simp [install, herr, dmx_driver_install, h1, h2a, h2b]
  · have herr : dmx_param_config dmx_num (some cfg) minBrkUs minMabUs
        maxMabUs = ESP_ERR_INVALID_ARG := by rw [hpc, if_neg hc]
    refine ⟨?_, fun hp _ => absurd hp hc, ?_, fun hp _ _ => absurd hp hc⟩
    · simp [install, herr, hc, ESP_ERR_INVALID_ARG, ESP_OK]
    · intro _
      simp [install, herr, ESP_ERR_INVALID_ARG, ESP_OK]

/-- C7 (witness): the characterization theorem applied to a concrete
passing configuration (250 kbit/s, 44 break bits, 12 idle bits) on free
port 0 with all allocations succeeding. -/
theorem install_error_characterization_witness :
    ((0 : Nat) < DMX_NUM_MAX ∧ (0 < 513 ∧ 513 ≤ DMX_MAX_PACKET_SIZE)) ∧
      ((install 0 513 (some ⟨250000, 44, 12⟩) 92 12 1000000 false true true
            none).1 = ESP_OK ↔
        (param_config_ok ⟨250000, 44, 12⟩ 92 12 1000000 ∧
          false = false ∧ true = true ∧ true = true ∧
          (none : Option Int) = none)) :=
  ⟨⟨by decide, by decide⟩,
    (install_error_characterization 0 513 ⟨250000, 44, 12⟩ 92 12 1000000
        false true true none (by decide) (by decide)
        (fun e he => Option.noConfusion he)).1⟩

end EspDmx
